import Mathlib

/-!
Shallow embedding of the ChatHub browser client's real-time connection
manager (`src/chathub-frontend/src/context/SocketContext.js`) and the chat
panes' inbound-message handlers (`handleNewMessage` in the Chat component,
`handlePrivateMessage` in the PrivateChat component), together with proofs
about the connection lifecycle, room-membership operations, notification
deduplication and message deduplication.

Conventions of the embedding:
* The mutable refs of the provider become fields of an explicit `ConnState`
  record, mutated by pure transition functions (one per event handler or
  exposed operation).
* `socket.emit(...)` calls are collected in an output list of `Emit` values;
  `toast(...)` calls in a list of toast strings.
* JavaScript `setTimeout` bookkeeping is recorded in the state (`joinTimer`,
  `rosterTimers`, and expiry stamps inside `joinedUsers`); a timer firing is
  a separate transition function.
* A JavaScript value that may be `null`/`undefined` is an `Option`; a
  JavaScript `TypeError` raised by the code is an explicit `threw` outcome.
-/

namespace ChatHub

/-- Outbound transport events emitted by the connection manager
(client → server), as listed in the source's `socket.emit` calls. -/
inductive Emit where
  | userConnected (username room : String)
  | leave (username room : String)
  | whoIsOnline (room : String)
  | sendMsg (username content room : String)
  deriving Repr, DecidableEq

/-- The connection manager's ref-backed state in `SocketProvider`:
`socketRef`, `connected`, `isConnectingRef`, `socketInitializedRef`,
`currentRoomRef`, `roomJoinInProgressRef`, `lastJoinedRoomRef`,
`roomJoinTimeoutRef` (whether the 3-second join timeout is scheduled),
the delayed `who_is_online` requests scheduled by `joinRoom`, and
`joinedUsersRef` together with each entry's scheduled deletion time. -/
structure ConnState where
  hasSocket : Bool
  connected : Bool
  isConnecting : Bool
  initialized : Bool
  currentRoom : Option String
  joinInProgress : Bool
  lastJoinedRoom : Option String
  joinTimer : Bool
  rosterTimers : List String
  joinedUsers : List (String × Nat)
  deriving Repr, DecidableEq

/-- The state while the first connection attempt is in flight: the effect
has created the socket but `socketRef.current` is only assigned inside the
`connect` handler, and every other ref still holds its initial value. -/
def connectingState : ConnState :=
  { hasSocket := false
    connected := false
    isConnecting := true
    initialized := false
    currentRoom := none
    joinInProgress := false
    lastJoinedRoom := none
    joinTimer := false
    rosterTimers := []
    joinedUsers := [] }

/-- The `connect` handler (lines 78–94): set `connected`, store the socket,
clear `isConnectingRef`, mark `socketInitializedRef = true`, deliberately
join no room, and toast a success message.  It emits nothing. -/
def onConnect (s : ConnState) : ConnState × List Emit × List String :=
  ({ s with connected := true
            hasSocket := true
            isConnecting := false
            initialized := true },
   [], ["Connected to ChatHub! 🌐"])

/-- The `reconnect` handler (lines 167–180): set `connected`, mark
`socketInitializedRef = true`, clear the joined-user tracker, reset the
join-in-progress flag, toast, and deliberately rejoin no room. -/
def onReconnect (s : ConnState) : ConnState × List Emit × List String :=
  ({ s with connected := true
            initialized := true
            joinedUsers := []
            joinInProgress := false },
   [], ["Reconnected to ChatHub! 🎉"])

/-- The toasts produced by the `disconnect` handler's `switch (reason)`
(lines 140–164). -/
def disconnectToasts (reason : String) : List String :=
  if reason = "io server disconnect" then ["Server disconnected. Reconnecting..."]
  else if reason = "io client disconnect" then []
  else if reason = "ping timeout" then ["Connection timed out. Reconnecting..."]
  else if reason = "transport close" then []
  else if reason = "transport error" then []
  else if reason ≠ "io client disconnect" then ["Connection lost. Attempting to reconnect..."]
  else []

/-- Whether the `disconnect` handler itself calls `newSocket.connect()`
(only for a server-initiated disconnect). -/
def disconnectCallsConnect (reason : String) : Bool :=
  reason = "io server disconnect"

/-- The `disconnect` handler's state mutations (lines 124–137), identical
for every reason: clear `connected`, `socketInitializedRef`,
`joinedUsersRef`, `roomJoinInProgressRef`, `lastJoinedRoomRef`, and cancel
the join timeout.  `currentRoomRef` is not touched. -/
def onDisconnect (s : ConnState) (_reason : String) : ConnState :=
  { s with connected := false
           initialized := false
           joinedUsers := []
           joinInProgress := false
           lastJoinedRoom := none
           joinTimer := false }

/-- Result of an exposed operation: the new state, the events emitted on
the transport, and the toasts shown to the user. -/
structure OpResult where
  state : ConnState
  emits : List Emit
  toasts : List String
  deriving Repr, DecidableEq

/-- `joinRoom(roomName)` (lines 407–464).  `user` is `none` when no
authenticated identity exists; a JavaScript falsy `roomName` is the empty
string.  The delayed `who_is_online` request is recorded as a scheduled
roster timer; the 3-second join timeout as `joinTimer := true`. -/
def joinRoom (s : ConnState) (user : Option String) (room : String) : OpResult :=
  match user with
  | none =>
      { state := s, emits := []
        toasts := if ¬s.connected then ["Not connected to server"] else [] }
  | some u =>
      if ¬s.hasSocket ∨ room = "" ∨ ¬s.connected ∨ ¬s.initialized then
        { state := s, emits := []
          toasts := if ¬s.connected then ["Not connected to server"] else [] }
      else if s.joinInProgress ∧ s.lastJoinedRoom = some room then
        { state := s, emits := [], toasts := [] }
      else if s.currentRoom = some room ∧ ¬s.joinInProgress then
        { state := s, emits := [], toasts := [] }
      else
        { state :=
            { s with joinInProgress := true
                     lastJoinedRoom := some room
                     currentRoom := some room
                     rosterTimers := s.rosterTimers ++ [room]
                     joinTimer := true }
          emits := [Emit.userConnected u room]
          toasts := [] }

/-- The 3-second join timeout firing (lines 460–463): reset
`roomJoinInProgressRef`. -/
def fireJoinTimeout (s : ConnState) : ConnState :=
  { s with joinInProgress := false, joinTimer := false }

/-- `leaveRoom(roomName)` (lines 466–482): when a socket, a user and a
room name exist, clear the membership state if (and only if) the room is
the current one, and in every such case emit the leave event. -/
def leaveRoom (s : ConnState) (user : Option String) (room : String) : OpResult :=
  match user with
  | none => { state := s, emits := [], toasts := [] }
  | some u =>
      if s.hasSocket ∧ room ≠ "" then
        let s' :=
          if some room = s.currentRoom then
            { s with joinInProgress := false
                     currentRoom := none
                     lastJoinedRoom := none }
          else s
        { state := s', emits := [Emit.leave u room], toasts := [] }
      else { state := s, emits := [], toasts := [] }

/-- JavaScript whitespace for `String.prototype.trim`. -/
def isWS (c : Char) : Bool :=
  c = ' ' ∨ c = '\t' ∨ c = '\n' ∨ c = '\r'

/-- JavaScript `content.trim()`: strip whitespace from both ends. -/
def jsTrim (s : String) : String :=
  String.mk (((s.data.dropWhile isWS).reverse.dropWhile isWS).reverse)

/-- Outcome of `sendMessage`: either the function returned a boolean, or
the expression `content.trim()` in its guard raised a `TypeError` because
`content` was `null`/`undefined`. -/
inductive SendOutcome where
  | threw
  | returned (ok : Bool)
  deriving Repr, DecidableEq

/-- Result of `sendMessage`: outcome plus emitted events and toasts. -/
structure SendResult where
  outcome : SendOutcome
  emits : List Emit
  toasts : List String
  deriving Repr, DecidableEq

/-- The failure branch of `sendMessage` (lines 496–515): warn, toast
according to the first failing requirement among connectivity,
initialization and emptiness (a missing room name alone toasts nothing),
and return `false`.  Note the branch reads `content?.trim()`, so it never
throws. -/
def sendMessageElse (s : ConnState) (content : Option String) : SendResult :=
  { outcome := SendOutcome.returned false
    emits := []
    toasts :=
      if ¬s.connected then ["Not connected to server"]
      else if ¬s.initialized then ["Socket not initialized. Please refresh the page."]
      else if (content.map jsTrim).getD "" = "" then ["Message cannot be empty"]
      else [] }

/-- `sendMessage(roomName, content)` (lines 484–516).  The guard evaluates
`socketRef.current && user && content.trim() && roomName && connected &&
socketInitializedRef.current` left to right, so `content.trim()` runs — and
throws on a `null`/`undefined` `content` — exactly when both the socket and
the user are present. -/
def sendMessage (s : ConnState) (user : Option String) (room : String)
    (content : Option String) : SendResult :=
  if s.hasSocket = false ∨ user = none then sendMessageElse s content
  else
    match content with
    | none => { outcome := SendOutcome.threw, emits := [], toasts := [] }
    | some c =>
        if jsTrim c ≠ "" ∧ room ≠ "" ∧ s.connected ∧ s.initialized then
          { outcome := SendOutcome.returned true
            emits := [Emit.sendMsg (user.getD "") (jsTrim c) room]
            toasts := [] }
        else sendMessageElse s (some c)

/-- Fire every scheduled joined-user-tracker deletion that is due at time
`t`: each `user_joined` notification schedules, 5000 ms later, the removal
of its username from `joinedUsersRef` (lines 284–286). -/
def trackerPurge (t : Nat) (s : ConnState) : ConnState :=
  { s with joinedUsers := s.joinedUsers.filter fun p => t < p.2 }

/-- The `user_joined` handler (lines 273–291), at time `t`, for the
authenticated username `self`.  `payload` is the event's `username` field
(`none` when absent).  Returns the new state and whether a toast was
shown; a shown notification adds the username to the tracker with a
deletion scheduled 5000 ms later. -/
def onUserJoined (self : String) (s : ConnState) (t : Nat)
    (payload : Option String) : ConnState × Bool :=
  match payload with
  | none => (s, false)
  | some u =>
      if u ≠ "" ∧ u ≠ self then
        if ¬s.joinedUsers.any (fun p => p.1 = u) then
          ({ s with joinedUsers := (u, t + 5000) :: s.joinedUsers }, true)
        else (s, false)
      else (s, false)

/-- A `user_joined` event arriving at time `t`: all tracker deletions due
by `t` have fired before the handler runs. -/
def userJoinedAt (self : String) (t : Nat) (payload : Option String)
    (s : ConnState) : ConnState × Bool :=
  onUserJoined self (trackerPurge t s) t payload

/-- The `user_left` handler (lines 293–301): toast and drop the username
from the tracker, but only for a present, non-self username. -/
def onUserLeft (self : String) (s : ConnState)
    (payload : Option String) : ConnState × Bool :=
  match payload with
  | none => (s, false)
  | some u =>
      if u ≠ "" ∧ u ≠ self then
        ({ s with joinedUsers := s.joinedUsers.filter fun p => p.1 ≠ u }, true)
      else (s, false)

/-- JavaScript values as the `online_users` handler can receive them. -/
inductive JValue where
  | jnull
  | jbool (b : Bool)
  | jnum (n : Int)
  | jstr (s : String)
  | jarr (l : List JValue)
  | jobj (fields : List (String × JValue))

/-- Property access `data.users`: only an object yields a field value;
`null` and primitives yield `undefined` (here `none`). -/
def JValue.getField : JValue → String → Option JValue
  | .jobj fs, k => fs.lookup k
  | _, _ => none

/-- JavaScript truthiness of a value. -/
def JValue.isTruthy : JValue → Bool
  | .jnull => false
  | .jbool b => b
  | .jnum n => n ≠ 0
  | .jstr s => s ≠ ""
  | .jarr _ => true
  | .jobj _ => true

/-- The guard `data && Array.isArray(data.users)` together with the read of
`data.users`: the wrapped users array, when the payload has one. -/
def usersField (d : JValue) : Option (List JValue) :=
  if d.isTruthy then
    match d.getField "users" with
    | some (.jarr l) => some l
    | _ => none
  else none

/-- The `online_users` handler (lines 250–270): a raw array replaces the
roster, a truthy payload wrapping an array under `users` replaces it with
that array, and anything else logs a warning (second component `true`) and
empties the roster.  No branch throws. -/
def onlineUsersHandler (d : JValue) : List JValue × Bool :=
  match d with
  | .jarr l => (l, false)
  | _ =>
      match usersField d with
      | some l => (l, false)
      | none => ([], true)

/-- A room chat message as handled by the Chat component. -/
structure RoomMsg where
  id : String
  room_name : String
  username : String
  content : String
  deriving Repr, DecidableEq

/-- `handleNewMessage` in the Chat component: drop a `null` message, a
message with a falsy `room_name`, or one addressed to a different room;
then append unless a message with the same `id` is already held. -/
def handleNewMessage (currentRoom : String) (msgs : List RoomMsg)
    (m : Option RoomMsg) : List RoomMsg :=
  match m with
  | none => msgs
  | some m =>
      if m.room_name = "" ∨ m.room_name ≠ currentRoom then msgs
      else if msgs.any (fun x => x.id = m.id) then msgs
      else msgs ++ [m]

/-- A private message as delivered by the transport
(`receive_private_message`). -/
structure PrivMsg where
  id : String
  fromUser : String
  toUser : String
  content : String
  is_mod : Bool
  deriving Repr, DecidableEq

/-- The shape the PrivateChat component stores after formatting. -/
structure FormattedMsg where
  id : String
  senderUsername : String
  senderIsMod : Bool
  content : String
  read : Bool
  deriving Repr, DecidableEq

/-- The `formattedMessage` conversion inside `handlePrivateMessage`. -/
def formatPrivMsg (m : PrivMsg) : FormattedMsg :=
  { id := m.id
    senderUsername := m.fromUser
    senderIsMod := m.is_mod
    content := m.content
    read := false }

/-- `handlePrivateMessage` in the PrivateChat component (for authenticated
user `self` chatting with `friend`): keep only messages between the two
peers, then append the formatted message unless one with the same `id` is
already held. -/
def handlePrivateMessage (self friend : String) (msgs : List FormattedMsg)
    (m : PrivMsg) : List FormattedMsg :=
  if (m.fromUser = friend ∧ m.toUser = self) ∨
     (m.toUser = friend ∧ m.fromUser = self) then
    if msgs.any (fun x => x.id = m.id) then msgs
    else msgs ++ [formatPrivMsg m]
  else msgs

/-- Number of membership announcements (`user_connected` emits) for `room`
in an emitted-event list. -/
def countUserConnected (room : String) (es : List Emit) : Nat :=
  (es.filter fun e =>
    match e with
    | Emit.userConnected _ r => r = room
    | _ => false).length

/-- Number of leave announcements (`leave` emits) for `room` in an
emitted-event list. -/
def countLeave (room : String) (es : List Emit) : Nat :=
  (es.filter fun e =>
    match e with
    | Emit.leave _ r => r = room
    | _ => false).length

/-- Call `joinRoom` for the same room `n` times in a row, returning the
final state and the total number of membership announcements emitted. -/
def joinRepeat (user : Option String) (room : String) :
    Nat → ConnState → ConnState × Nat
  | 0, s => (s, 0)
  | n + 1, s =>
      let r := joinRoom s user room
      let p := joinRepeat user room n r.state
      (p.1, countUserConnected room r.emits + p.2)

/-- A state in which `joinRoom room` takes one of its two skip branches:
the same join is already in progress, or the room is already current with
no join pending. -/
def joinNoOp (s : ConnState) (room : String) : Prop :=
  (s.joinInProgress = true ∧ s.lastJoinedRoom = some room) ∨
  (s.currentRoom = some room ∧ s.joinInProgress = false)

/-- Process a list of timed `user_joined` events, collecting for each the
flag saying whether it produced a visible notification. -/
def userJoinedSeq (self : String) :
    List (Nat × Option String) → ConnState → ConnState × List Bool
  | [], s => (s, [])
  | e :: es, s =>
      let r := userJoinedAt self e.1 e.2 s
      let p := userJoinedSeq self es r.1
      (p.1, r.2 :: p.2)

theorem joinRoom_skip (s : ConnState) (u room : String)
    (hs : s.hasSocket = true) (hc : s.connected = true)
    (hi : s.initialized = true) (hr : room ≠ "") (h : joinNoOp s room) :
    joinRoom s (some u) room = { state := s, emits := [], toasts := [] } := by
  rcases h with ⟨h1, h2⟩ | ⟨h1, h2⟩ <;>
    simp [joinRoom, hs, hc, hi, hr, h1, h2]

theorem joinRoom_proceed (s : ConnState) (u room : String)
    (hs : s.hasSocket = true) (hc : s.connected = true)
    (hi : s.initialized = true) (hr : room ≠ "")
    (hp : ¬(s.joinInProgress = true ∧ s.lastJoinedRoom = some room))
    (hcur : ¬(s.currentRoom = some room ∧ s.joinInProgress = false)) :
    joinRoom s (some u) room =
      { state :=
          { s with joinInProgress := true
                   lastJoinedRoom := some room
                   currentRoom := some room
                   rosterTimers := s.rosterTimers ++ [room]
                   joinTimer := true }
        emits := [Emit.userConnected u room]
        toasts := [] } := by
  simp [joinRoom, hs, hc, hi, hr, hp, hcur]

theorem joinRepeat_skip (u room : String) (s : ConnState)
    (hs : s.hasSocket = true) (hc : s.connected = true)
    (hi : s.initialized = true) (hr : room ≠ "") (h : joinNoOp s room) :
    ∀ n, joinRepeat (some u) room n s = (s, 0) := by
  intro n
  induction n with
  | zero => rfl
  | succ n ih =>
      simp [joinRepeat, joinRoom_skip s u room hs hc hi hr h, ih,
        countUserConnected]

/-- C1, counterexample: the claim says the Connecting→Connected transition
marks `initialized = false`; but after the `connect` handler runs on the
fresh connecting state, `initialized` is `true`. -/
theorem connect_does_not_mark_initialized_false :
    (onConnect connectingState).1.initialized ≠ false := by decide

/-- C1, amended: on every Connecting→Connected transition (including a
successful reconnect) the connection manager sets `initialized = true`
immediately — without waiting for any room-membership announcement — while
joining no room (no transport event is emitted and `currentRoom` is left
untouched; the reconnect handler additionally clears the joined-user
tracker and the join-in-progress flag); the `initialized` flag gates
messaging: while it is `false`, `sendMessage` never returns success. -/
theorem connect_initializes_immediately_and_joins_no_room
    (s : ConnState) (user : Option String) (room : String)
    (content : Option String) :
    (onConnect s).1.initialized = true ∧
    (onConnect s).2.1 = [] ∧
    (onConnect s).1.currentRoom = s.currentRoom ∧
    (onReconnect s).1.initialized = true ∧
    (onReconnect s).2.1 = [] ∧
    (onReconnect s).1.currentRoom = s.currentRoom ∧
    (onReconnect s).1.joinedUsers = [] ∧
    (onReconnect s).1.joinInProgress = false ∧
    (s.initialized = false →
      (sendMessage s user room content).outcome ≠ SendOutcome.returned true) := by
  refine ⟨rfl, rfl, rfl, rfl, rfl, rfl, rfl, rfl, ?_⟩
  intro h
  unfold sendMessage
  split
  · simp [sendMessageElse]
  · split
    · simp
    · split
      · rename_i hcond
        exact absurd hcond.2.2.2 (by simp [h])
      · simp [sendMessageElse]

/-- C1, witness for the amended theorem at a concrete input. -/
theorem connect_initializes_immediately_witness :
    (onConnect connectingState).1.initialized = true ∧
    (onConnect connectingState).2.1 = [] ∧
    (onConnect connectingState).1.currentRoom = connectingState.currentRoom ∧
    (onReconnect connectingState).1.initialized = true ∧
    (onReconnect connectingState).2.1 = [] ∧
    (onReconnect connectingState).1.currentRoom = connectingState.currentRoom ∧
    (onReconnect connectingState).1.joinedUsers = [] ∧
    (onReconnect connectingState).1.joinInProgress = false ∧
    (sendMessage connectingState (some "carol") "Chat Room 1"
        (some "hi")).outcome ≠ SendOutcome.returned true :=
  have h := connect_initializes_immediately_and_joins_no_room
    connectingState (some "carol") "Chat Room 1" (some "hi")
  ⟨h.1, h.2.1, h.2.2.1, h.2.2.2.1, h.2.2.2.2.1, h.2.2.2.2.2.1,
   h.2.2.2.2.2.2.1, h.2.2.2.2.2.2.2.1, h.2.2.2.2.2.2.2.2 rfl⟩

/-- C2, counterexample: the claim says `joinRoom(A)` then `joinRoom(B)`
(before the first completes) emits exactly one leave-announcement for `A`;
on the code the pair of calls emits no leave at all. -/
theorem room_switch_emits_no_leave :
    countLeave "Chat Room 1"
      ((joinRoom ((onConnect connectingState).1) (some "carol")
          "Chat Room 1").emits ++
        (joinRoom (joinRoom ((onConnect connectingState).1) (some "carol")
            "Chat Room 1").state (some "carol") "Chat Room 2").emits) = 0 := by
  decide

/-- C2, amended: `joinRoom(A)` followed by `joinRoom(B)` (for `B ≠ A`,
while the join to `A` is still in progress) emits no leave-announcement
for `A` — `joinRoom` never emits leaves — and exactly one join-announcement
for `B`, and afterwards `currentRoom = B`. -/
theorem room_switch_one_join_no_leave
    (s : ConnState) (u A B : String)
    (hs : s.hasSocket = true) (hc : s.connected = true)
    (hi : s.initialized = true) (hA : A ≠ "") (hB : B ≠ "") (hAB : A ≠ B)
    (hp : s.joinInProgress = false) (hcur : s.currentRoom ≠ some A) :
    countLeave A ((joinRoom s (some u) A).emits ++
        (joinRoom (joinRoom s (some u) A).state (some u) B).emits) = 0 ∧
    countUserConnected B ((joinRoom s (some u) A).emits ++
        (joinRoom (joinRoom s (some u) A).state (some u) B).emits) = 1 ∧
    (joinRoom s (some u) A).state.joinInProgress = true ∧
    (joinRoom (joinRoom s (some u) A).state (some u) B).state.currentRoom
      = some B := by
  have e1 := joinRoom_proceed s u A hs hc hi hA
    (by simp [hp]) (by simp [hp, hcur])
  have e2 := joinRoom_proceed (joinRoom s (some u) A).state u B
    (by simp [e1, hs]) (by simp [e1, hc]) (by simp [e1, hi]) hB
    (by simp [e1, hAB]) (by simp [e1])
  rw [e1] at e2
  refine ⟨?_, ?_, ?_, ?_⟩ <;>
    simp [e1, e2, countLeave, countUserConnected, hAB, Ne.symm hAB]

/-- C2, witness for the amended theorem at a concrete input. -/
theorem room_switch_one_join_witness :
    countUserConnected "Chat Room 2"
      ((joinRoom ((onConnect connectingState).1) (some "carol")
          "Chat Room 1").emits ++
        (joinRoom (joinRoom ((onConnect connectingState).1) (some "carol")
            "Chat Room 1").state (some "carol") "Chat Room 2").emits) = 1 ∧
    (joinRoom (joinRoom ((onConnect connectingState).1) (some "carol")
        "Chat Room 1").state (some "carol") "Chat Room 2").state.currentRoom
      = some "Chat Room 2" :=
  ⟨(room_switch_one_join_no_leave ((onConnect connectingState).1) "carol"
      "Chat Room 1" "Chat Room 2" rfl rfl rfl (by decide) (by decide)
      (by decide) rfl (by decide)).2.1,
   (room_switch_one_join_no_leave ((onConnect connectingState).1) "carol"
      "Chat Room 1" "Chat Room 2" rfl rfl rfl (by decide) (by decide)
      (by decide) rfl (by decide)).2.2.2⟩

/-- C3, counterexample: the claim says any disconnect clears `currentRoom`;
after joining "Chat Room 1" and receiving a disconnect, `currentRoom` is
still "Chat Room 1". -/
theorem disconnect_preserves_currentRoom_example :
    (onDisconnect
        (joinRoom ((onConnect connectingState).1) (some "carol")
          "Chat Room 1").state "transport close").currentRoom
      = some "Chat Room 1" := by decide

/-- C3, amended: on any disconnect signal (whatever the reason) the
handler clears `initialized`, the join-in-progress flag, the last-joined
room, the join timer and the JoinedUserTracker and marks the connection
closed, but it does **not** clear `currentRoom`, which survives the
disconnect; the transport identifier is owned by the transport library,
not by this state. -/
theorem disconnect_clears_session_but_not_currentRoom
    (s : ConnState) (reason : String) :
    (onDisconnect s reason).connected = false ∧
    (onDisconnect s reason).initialized = false ∧
    (onDisconnect s reason).joinedUsers = [] ∧
    (onDisconnect s reason).joinInProgress = false ∧
    (onDisconnect s reason).lastJoinedRoom = none ∧
    (onDisconnect s reason).joinTimer = false ∧
    (onDisconnect s reason).currentRoom = s.currentRoom :=
  ⟨rfl, rfl, rfl, rfl, rfl, rfl, rfl⟩

/-- C4, counterexample: the claim says `leaveRoom(R)` is a no-op when
`R ≠ currentRoom`, emitting nothing; on the code it still emits the leave
event for `R`. -/
theorem leaveRoom_other_room_still_emits :
    (leaveRoom
        (joinRoom ((onConnect connectingState).1) (some "carol")
          "Chat Room 1").state (some "carol") "Chat Room 2").emits
      = [Emit.leave "carol" "Chat Room 2"] := by decide

/-- C4, amended: for every room name `R ≠ currentRoom` (with a live socket,
a user and a non-empty name), `leaveRoom(R)` leaves the whole state —
`currentRoom`, the pending-join bookkeeping and the join timer — unchanged,
but it still emits one leave-announcement for `R` to the transport. -/
theorem leaveRoom_nonmatching_preserves_state_but_emits
    (s : ConnState) (u room : String)
    (hs : s.hasSocket = true) (hr : room ≠ "")
    (hne : s.currentRoom ≠ some room) :
    (leaveRoom s (some u) room).state = s ∧
    (leaveRoom s (some u) room).emits = [Emit.leave u room] := by
  have hcond : ¬(some room = s.currentRoom) := fun h => hne h.symm
  constructor <;> simp [leaveRoom, hs, hr, hcond]

/-- C4, witness for the amended theorem at a concrete input. -/
theorem leaveRoom_nonmatching_witness :
    (leaveRoom
        (joinRoom ((onConnect connectingState).1) (some "carol")
          "Chat Room 1").state (some "carol") "Chat Room 2").state
      = (joinRoom ((onConnect connectingState).1) (some "carol")
          "Chat Room 1").state ∧
    (leaveRoom
        (joinRoom ((onConnect connectingState).1) (some "carol")
          "Chat Room 1").state (some "carol") "Chat Room 2").emits
      = [Emit.leave "carol" "Chat Room 2"] :=
  leaveRoom_nonmatching_preserves_state_but_emits
    (joinRoom ((onConnect connectingState).1) (some "carol")
      "Chat Room 1").state "carol" "Chat Room 2" (by decide) (by decide)
    (by decide)

/-- C5: `joinRoom` is idempotent — starting from a live initialized state
in which the join can proceed, a run of `n + 1` consecutive `joinRoom(A)`
calls emits exactly one membership-announcement in total (every repeat
call, issued while the join to `A` is pending, is a no-op), and repeats
issued after the pending flag is reset by the join timeout (when
`currentRoom = A` with no join pending) emit none at all. -/
theorem joinRoom_idempotent_one_announcement
    (s : ConnState) (u room : String) (n : Nat)
    (hs : s.hasSocket = true) (hc : s.connected = true)
    (hi : s.initialized = true) (hr : room ≠ "")
    (hp : ¬(s.joinInProgress = true ∧ s.lastJoinedRoom = some room))
    (hcur : ¬(s.currentRoom = some room ∧ s.joinInProgress = false)) :
    (joinRepeat (some u) room (n + 1) s).2 = 1 ∧
    (joinRepeat (some u) room n
        (fireJoinTimeout (joinRoom s (some u) room).state)).2 = 0 := by
  have e1 := joinRoom_proceed s u room hs hc hi hr hp hcur
  constructor
  · have hskip : joinNoOp (joinRoom s (some u) room).state room := by
      left; simp [e1]
    have hrep := joinRepeat_skip u room (joinRoom s (some u) room).state
      (by simp [e1, hs]) (by simp [e1, hc]) (by simp [e1, hi]) hr hskip n
    rw [e1] at hrep
    simp [joinRepeat, hrep, e1, countUserConnected]
  · have hskip : joinNoOp (fireJoinTimeout (joinRoom s (some u) room).state)
        room := by
      right; simp [e1, fireJoinTimeout]
    have hrep := joinRepeat_skip u room
      (fireJoinTimeout (joinRoom s (some u) room).state)
      (by simp [e1, fireJoinTimeout, hs]) (by simp [e1, fireJoinTimeout, hc])
      (by simp [e1, fireJoinTimeout, hi]) hr hskip n
    simp [hrep]

/-- C5, witness: three consecutive `joinRoom("Chat Room 1")` calls from a
freshly connected state emit exactly one announcement, and two further
calls after the join timeout emit none. -/
theorem joinRoom_idempotent_witness :
    (joinRepeat (some "carol") "Chat Room 1" 3
        ((onConnect connectingState).1)).2 = 1 ∧
    (joinRepeat (some "carol") "Chat Room 1" 2
        (fireJoinTimeout
          (joinRoom ((onConnect connectingState).1) (some "carol")
            "Chat Room 1").state)).2 = 0 :=
  joinRoom_idempotent_one_announcement ((onConnect connectingState).1)
    "carol" "Chat Room 1" 2 rfl rfl rfl (by decide) (by decide) (by decide)

/-- C6, counterexample: the claim quantifies over every username; but a
`user_joined` event whose username equals the authenticated user's own
("alice") produces no notification even on its first arrival. -/
theorem self_join_event_produces_nothing :
    (userJoinedAt "alice" 0 (some "alice") (onConnect connectingState).1).2
      = false := by decide

/-- C6, amended: for every username `u` that is non-empty and differs from
the authenticated user's own, starting from an empty tracker, a
`user_joined` event at `t₁` produces a notification, an identical event at
`t₂` within 5 seconds of `t₁` produces none, an identical event at
`t₃ ≥ t₁ + 5s` (after the window expired) produces a second notification —
the window is anchored at the notification time `t₁`, not slid forward by
the suppressed arrival at `t₂` — and the window then restarts at `t₃`: an
event at `t₄` within 5 seconds of `t₃` is again suppressed. -/
theorem user_joined_debounce_window
    (s : ConnState) (self u : String) (t1 t2 t3 t4 : Nat)
    (hu : u ≠ "") (hself : u ≠ self) (hs : s.joinedUsers = [])
    (h12 : t2 < t1 + 5000) (h13 : t1 + 5000 ≤ t3) (h34 : t4 < t3 + 5000) :
    (userJoinedSeq self
        [(t1, some u), (t2, some u), (t3, some u), (t4, some u)] s).2
      = [true, false, true, false] := by
  have h13' : ¬(t3 < t1 + 5000) := by omega
  have e1 : userJoinedAt self t1 (some u) s
      = ({ s with joinedUsers := [(u, t1 + 5000)] }, true) := by
    simp [userJoinedAt, trackerPurge, onUserJoined, hs, hu, hself]
  have e2 : userJoinedAt self t2 (some u)
        ({ s with joinedUsers := [(u, t1 + 5000)] })
      = ({ s with joinedUsers := [(u, t1 + 5000)] }, false) := by
    simp [userJoinedAt, trackerPurge, onUserJoined, hu, hself, h12]
  have e3 : userJoinedAt self t3 (some u)
        ({ s with joinedUsers := [(u, t1 + 5000)] })
      = ({ s with joinedUsers := [(u, t3 + 5000)] }, true) := by
    simp [userJoinedAt, trackerPurge, onUserJoined, hu, hself, h13']
  have e4 : userJoinedAt self t4 (some u)
        ({ s with joinedUsers := [(u, t3 + 5000)] })
      = ({ s with joinedUsers := [(u, t3 + 5000)] }, false) := by
    simp [userJoinedAt, trackerPurge, onUserJoined, hu, hself, h34]
  simp [userJoinedSeq, e1, e2, e3, e4]

/-- C6, witness: "bob" joins at 0 ms, again at 1000 ms (suppressed), again
at 5000 ms (notified anew), again at 6000 ms (suppressed). -/
theorem user_joined_debounce_witness :
    (userJoinedSeq "alice"
        [(0, some "bob"), (1000, some "bob"), (5000, some "bob"),
          (6000, some "bob")] (onConnect connectingState).1).2
      = [true, false, true, false] :=
  user_joined_debounce_window (onConnect connectingState).1 "alice" "bob"
    0 1000 5000 6000 (by decide) (by decide) rfl (by decide) (by decide)
    (by decide)

/-- C10: a `user_joined` or `user_left` event whose username equals the
authenticated user's own, or which lacks a username field, shows no
notification and leaves the joined-user tracker (indeed the whole state)
unmodified. -/
theorem self_or_missing_username_is_ignored
    (s : ConnState) (self : String) (t : Nat) (payload : Option String)
    (h : payload = none ∨ payload = some self) :
    onUserJoined self s t payload = (s, false) ∧
    onUserLeft self s payload = (s, false) := by
  rcases h with h | h <;> subst h <;>
    constructor <;> simp [onUserJoined, onUserLeft]

/-- C10, witness at a concrete self-join/self-leave event. -/
theorem self_or_missing_username_witness :
    onUserJoined "alice" (onConnect connectingState).1 0 (some "alice")
      = ((onConnect connectingState).1, false) ∧
    onUserLeft "alice" (onConnect connectingState).1 (some "alice")
      = ((onConnect connectingState).1, false) :=
  self_or_missing_username_is_ignored (onConnect connectingState).1 "alice"
    0 (some "alice") (Or.inr rfl)

theorem any_eq_iff_mem_map {α : Type} (f : α → String) (l : List α)
    (i : String) :
    (l.any fun x => f x = i) = true ↔ i ∈ l.map f := by
  simp [List.any_eq_true, List.mem_map]

theorem nodup_concat_of_not_mem (l : List String) (a : String)
    (hl : l.Nodup) (ha : a ∉ l) : (l ++ [a]).Nodup := by
  simp [List.nodup_append, hl, ha]

/-- C7: both inbound chat-message handlers deduplicate by identifier — a
message (for the relevant room or private chat) whose `id` already occurs
in the locally held sequence leaves the sequence unchanged, and otherwise
is appended exactly once; consequently each handler preserves the
invariant that the sequence never holds two messages with the same `id`. -/
theorem message_dedup_by_id
    (room : String) (msgs : List RoomMsg) (m : RoomMsg)
    (self friend : String) (pmsgs : List FormattedMsg) (pm : PrivMsg)
    (hroom : m.room_name = room) (hne : room ≠ "")
    (hrel : (pm.fromUser = friend ∧ pm.toUser = self) ∨
      (pm.toUser = friend ∧ pm.fromUser = self)) :
    (m.id ∈ msgs.map RoomMsg.id →
      handleNewMessage room msgs (some m) = msgs) ∧
    (m.id ∉ msgs.map RoomMsg.id →
      handleNewMessage room msgs (some m) = msgs ++ [m]) ∧
    (∀ m' : Option RoomMsg, (msgs.map RoomMsg.id).Nodup →
      ((handleNewMessage room msgs m').map RoomMsg.id).Nodup) ∧
    (pm.id ∈ pmsgs.map FormattedMsg.id →
      handlePrivateMessage self friend pmsgs pm = pmsgs) ∧
    (pm.id ∉ pmsgs.map FormattedMsg.id →
      handlePrivateMessage self friend pmsgs pm
        = pmsgs ++ [formatPrivMsg pm]) ∧
    (∀ pm' : PrivMsg, (pmsgs.map FormattedMsg.id).Nodup →
      ((handlePrivateMessage self friend pmsgs pm').map
        FormattedMsg.id).Nodup) := by
  refine ⟨?_, ?_, ?_, ?_, ?_, ?_⟩
  · intro hmem
    have hany := (any_eq_iff_mem_map RoomMsg.id msgs m.id).mpr hmem
    simp [handleNewMessage, hroom, hne, hany]
  · intro hmem
    have hany : ¬((msgs.any fun x => x.id = m.id) = true) := fun hc =>
      hmem ((any_eq_iff_mem_map RoomMsg.id msgs m.id).mp hc)
    simp [handleNewMessage, hroom, hne, hany]
  · intro m' h
    rcases m' with _ | m'
    · simpa [handleNewMessage] using h
    · by_cases h1 : m'.room_name = "" ∨ m'.room_name ≠ room
      · simpa [handleNewMessage, h1] using h
      · by_cases h2 : m'.id ∈ msgs.map RoomMsg.id
        · have hany := (any_eq_iff_mem_map RoomMsg.id msgs m'.id).mpr h2
          simpa [handleNewMessage, h1, hany] using h
        · have hany : ¬((msgs.any fun x => x.id = m'.id) = true) := fun hc =>
            h2 ((any_eq_iff_mem_map RoomMsg.id msgs m'.id).mp hc)
          have : handleNewMessage room msgs (some m') = msgs ++ [m'] := by
            simp [handleNewMessage, h1, hany]
          rw [this, List.map_append]
          exact nodup_concat_of_not_mem _ _ h h2
  · intro hmem
    have hany := (any_eq_iff_mem_map FormattedMsg.id pmsgs pm.id).mpr hmem
    simp [handlePrivateMessage, hrel, hany]
  · intro hmem
    have hany : ¬((pmsgs.any fun x => x.id = pm.id) = true) := fun hc =>
      hmem ((any_eq_iff_mem_map FormattedMsg.id pmsgs pm.id).mp hc)
    simp [handlePrivateMessage, hrel, hany]
  · intro pm' h
    by_cases h1 : (pm'.fromUser = friend ∧ pm'.toUser = self) ∨
        (pm'.toUser = friend ∧ pm'.fromUser = self)
    · by_cases h2 : pm'.id ∈ pmsgs.map FormattedMsg.id
      · have hany := (any_eq_iff_mem_map FormattedMsg.id pmsgs pm'.id).mpr h2
        simpa [handlePrivateMessage, h1, hany] using h
      · have hany : ¬((pmsgs.any fun x => x.id = pm'.id) = true) := fun hc =>
          h2 ((any_eq_iff_mem_map FormattedMsg.id pmsgs pm'.id).mp hc)
        have : handlePrivateMessage self friend pmsgs pm'
            = pmsgs ++ [formatPrivMsg pm'] := by
          simp [handlePrivateMessage, h1, hany]
        rw [this, List.map_append]
        exact nodup_concat_of_not_mem _ _ h (by simpa [formatPrivMsg] using h2)
    · simpa [handlePrivateMessage, h1] using h

/-- C7, witness: a redelivered room message with an already-held id is
dropped; a fresh id is appended once; same for a private message. -/
theorem message_dedup_witness :
    handleNewMessage "Chat Room 1"
        [{ id := "1", room_name := "Chat Room 1", username := "carol",
           content := "hi" }]
        (some { id := "1", room_name := "Chat Room 1", username := "dave",
                content := "yo" })
      = [{ id := "1", room_name := "Chat Room 1", username := "carol",
           content := "hi" }] ∧
    handleNewMessage "Chat Room 1"
        [{ id := "1", room_name := "Chat Room 1", username := "carol",
           content := "hi" }]
        (some { id := "2", room_name := "Chat Room 1", username := "dave",
                content := "yo" })
      = [{ id := "1", room_name := "Chat Room 1", username := "carol",
           content := "hi" },
         { id := "2", room_name := "Chat Room 1", username := "dave",
           content := "yo" }] ∧
    handlePrivateMessage "alice" "bob"
        [{ id := "7", senderUsername := "bob", senderIsMod := false,
           content := "hey", read := false }]
        { id := "7", fromUser := "bob", toUser := "alice", content := "hey",
          is_mod := false }
      = [{ id := "7", senderUsername := "bob", senderIsMod := false,
           content := "hey", read := false }] :=
  ⟨(message_dedup_by_id "Chat Room 1" _
      { id := "1", room_name := "Chat Room 1", username := "dave",
        content := "yo" } "alice" "bob"
      [{ id := "7", senderUsername := "bob", senderIsMod := false,
         content := "hey", read := false }]
      { id := "7", fromUser := "bob", toUser := "alice", content := "hey",
        is_mod := false } rfl (by decide)
      (Or.inl ⟨rfl, rfl⟩)).1 (by decide),
   (message_dedup_by_id "Chat Room 1" _
      { id := "2", room_name := "Chat Room 1", username := "dave",
        content := "yo" } "alice" "bob"
      [{ id := "7", senderUsername := "bob", senderIsMod := false,
         content := "hey", read := false }]
      { id := "7", fromUser := "bob", toUser := "alice", content := "hey",
        is_mod := false } rfl (by decide)
      (Or.inl ⟨rfl, rfl⟩)).2.1 (by decide),
   (message_dedup_by_id "Chat Room 1"
      [{ id := "1", room_name := "Chat Room 1", username := "carol",
         content := "hi" }]
      { id := "1", room_name := "Chat Room 1", username := "dave",
        content := "yo" } "alice" "bob" _
      { id := "7", fromUser := "bob", toUser := "alice", content := "hey",
        is_mod := false } rfl (by decide)
      (Or.inl ⟨rfl, rfl⟩)).2.2.2.1 (by decide)⟩

/-- C8: the `online_users` handler is a total function that treats a raw
array and a truthy object wrapping the same array under `users`
identically (replacing the roster wholesale with that array and logging
nothing), while every other payload shape — including `null` — yields an
empty roster with a logged anomaly; being a total function, it never
throws. -/
theorem online_users_shape_tolerant
    (l : List JValue) (fs : List (String × JValue)) (d : JValue)
    (hfs : fs.lookup "users" = some (JValue.jarr l))
    (hnotarr : ∀ l', d ≠ JValue.jarr l')
    (hnousers : usersField d = none) :
    onlineUsersHandler (JValue.jarr l) = (l, false) ∧
    onlineUsersHandler (JValue.jobj fs) = (l, false) ∧
    onlineUsersHandler d = ([], true) ∧
    onlineUsersHandler JValue.jnull = ([], true) := by
  refine ⟨rfl, ?_, ?_, rfl⟩
  · simp [onlineUsersHandler, usersField, JValue.isTruthy, JValue.getField,
      hfs]
  · cases d with
    | jarr l' => exact absurd rfl (hnotarr l')
    | jnull => rfl
    | jbool b => simp [onlineUsersHandler, hnousers]
    | jnum n => simp [onlineUsersHandler, hnousers]
    | jstr s => simp [onlineUsersHandler, hnousers]
    | jobj fs' => simp [onlineUsersHandler, hnousers]

/-- C8, witness: the wrapped payload, the raw-array payload, a numeric
payload and the `null` payload at concrete values. -/
theorem online_users_shape_witness :
    onlineUsersHandler (JValue.jarr [JValue.jstr "bob"])
      = ([JValue.jstr "bob"], false) ∧
    onlineUsersHandler
        (JValue.jobj [("users", JValue.jarr [JValue.jstr "bob"])])
      = ([JValue.jstr "bob"], false) ∧
    onlineUsersHandler (JValue.jnum 7) = ([], true) ∧
    onlineUsersHandler JValue.jnull = ([], true) :=
  online_users_shape_tolerant [JValue.jstr "bob"]
    [("users", JValue.jarr [JValue.jstr "bob"])] (JValue.jnum 7) rfl
    (fun _ h => JValue.noConfusion h) rfl

/-- C9, counterexample: the claim says a call with missing content returns
`false` with a user notification and never throws; but with a live socket
and a user, `sendMessage(room, null)` evaluates `content.trim()` in its
guard and throws a `TypeError` instead of returning. -/
theorem sendMessage_null_content_throws :
    sendMessage ((onConnect connectingState).1) (some "carol")
        "Chat Room 1" none
      = { outcome := SendOutcome.threw, emits := [], toasts := [] } := by
  decide

/-- C9, amended: `sendMessage(room, content)` returns `true` and emits
exactly one `send_message` event carrying the sender identity, the
trimmed content and the room name when the socket and user exist, the
connection is live and initialized, and the trimmed content and the room
name are non-empty.  On failure it returns `false` — with a user
notification when the connection is down, the socket uninitialized, or the
content empty, but with **no** notification when only the room name is
missing — except that a `null`/`undefined` content with a live socket and
user makes the guard's `content.trim()` throw a `TypeError` instead of
returning.  A missing socket or missing user always yields a synchronous
`false` (never a throw). -/
theorem sendMessage_success_failure_modes
    (s : ConnState) (u room c : String) (content : Option String) :
    (s.hasSocket = true → s.connected = true → s.initialized = true →
      jsTrim c ≠ "" → room ≠ "" →
      sendMessage s (some u) room (some c)
        = { outcome := SendOutcome.returned true
            emits := [Emit.sendMsg u (jsTrim c) room]
            toasts := [] }) ∧
    (s.hasSocket = true →
      sendMessage s (some u) room none
        = { outcome := SendOutcome.threw, emits := [], toasts := [] }) ∧
    (s.hasSocket = true → s.connected = true → s.initialized = true →
      jsTrim c = "" →
      sendMessage s (some u) room (some c)
        = { outcome := SendOutcome.returned false
            emits := []
            toasts := ["Message cannot be empty"] }) ∧
    (s.connected = false →
      sendMessage s (some u) room (some c)
        = { outcome := SendOutcome.returned false
            emits := []
            toasts := ["Not connected to server"] }) ∧
    (s.hasSocket = true → s.connected = true → s.initialized = false →
      sendMessage s (some u) room (some c)
        = { outcome := SendOutcome.returned false
            emits := []
            toasts := ["Socket not initialized. Please refresh the page."] }) ∧
    (s.hasSocket = true → s.connected = true → s.initialized = true →
      jsTrim c ≠ "" →
      sendMessage s (some u) "" (some c)
        = { outcome := SendOutcome.returned false
            emits := []
            toasts := [] }) ∧
    ((sendMessage s none room content).outcome
      = SendOutcome.returned false) ∧
    (s.hasSocket = false →
      (sendMessage s (some u) room content).outcome
        = SendOutcome.returned false) := by
  refine ⟨?_, ?_, ?_, ?_, ?_, ?_, ?_, ?_⟩
  · intro h1 h2 h3 h4 h5
    simp [sendMessage, h1, h2, h3, h4, h5]
  · intro h1
    simp [sendMessage, h1]
  · intro h1 h2 h3 h4
    simp [sendMessage, sendMessageElse, h1, h2, h3, h4]
  · intro h1
    by_cases hsk : s.hasSocket <;>
      simp [sendMessage, sendMessageElse, h1, hsk]
  · intro h1 h2 h3
    simp [sendMessage, sendMessageElse, h1, h2, h3]
  · intro h1 h2 h3 h4
    simp [sendMessage, sendMessageElse, h1, h2, h3, h4]
  · simp [sendMessage, sendMessageElse]
  · intro h1
    simp [sendMessage, sendMessageElse, h1]

/-- C9, witness: the success, throw, empty-content, not-connected and
missing-room cases at concrete inputs. -/
theorem sendMessage_modes_witness :
    sendMessage ((onConnect connectingState).1) (some "carol")
        "Chat Room 1" (some " hi ")
      = { outcome := SendOutcome.returned true
          emits := [Emit.sendMsg "carol" "hi" "Chat Room 1"]
          toasts := [] } ∧
    sendMessage ((onConnect connectingState).1) (some "carol")
        "Chat Room 1" none
      = { outcome := SendOutcome.threw, emits := [], toasts := [] } ∧
    sendMessage ((onConnect connectingState).1) (some "carol")
        "Chat Room 1" (some "   ")
      = { outcome := SendOutcome.returned false
          emits := []
          toasts := ["Message cannot be empty"] } ∧
    sendMessage (onDisconnect ((onConnect connectingState).1)
          "transport close") (some "carol") "Chat Room 1" (some "hi")
      = { outcome := SendOutcome.returned false
          emits := []
          toasts := ["Not connected to server"] } ∧
    sendMessage { (onConnect connectingState).1 with initialized := false }
        (some "carol") "Chat Room 1" (some "hi")
      = { outcome := SendOutcome.returned false
          emits := []
          toasts := ["Socket not initialized. Please refresh the page."] } ∧
    sendMessage ((onConnect connectingState).1) (some "carol") ""
        (some "hi")
      = { outcome := SendOutcome.returned false
          emits := []
          toasts := [] } ∧
    (sendMessage ((onConnect connectingState).1) none "Chat Room 1"
        (some "hi")).outcome = SendOutcome.returned false ∧
    (sendMessage connectingState (some "carol") "Chat Room 1"
        none).outcome = SendOutcome.returned false :=
  ⟨(sendMessage_success_failure_modes ((onConnect connectingState).1)
      "carol" "Chat Room 1" " hi " none).1 rfl rfl rfl (by decide)
      (by decide),
   (sendMessage_success_failure_modes ((onConnect connectingState).1)
      "carol" "Chat Room 1" " hi " none).2.1 rfl,
   (sendMessage_success_failure_modes ((onConnect connectingState).1)
      "carol" "Chat Room 1" "   " none).2.2.1 rfl rfl rfl (by decide),
   (sendMessage_success_failure_modes (onDisconnect
      ((onConnect connectingState).1) "transport close")
      "carol" "Chat Room 1" "hi" none).2.2.2.1 rfl,
   (sendMessage_success_failure_modes
      { (onConnect connectingState).1 with initialized := false }
      "carol" "Chat Room 1" "hi" none).2.2.2.2.1 rfl rfl rfl,
   (sendMessage_success_failure_modes ((onConnect connectingState).1)
      "carol" "Chat Room 1" "hi" none).2.2.2.2.2.1 rfl rfl rfl (by decide),
   (sendMessage_success_failure_modes ((onConnect connectingState).1)
      "carol" "Chat Room 1" "hi" (some "hi")).2.2.2.2.2.2.1,
   (sendMessage_success_failure_modes connectingState
      "carol" "Chat Room 1" "hi" none).2.2.2.2.2.2.2 rfl⟩

end ChatHub
